import Mathlib

/-!
Shallow embedding of `trip-plan.py`, a single-file trip-itinerary generator.

Conventions of the embedding:
* Python `datetime` values are modelled as `Int` seconds since 1970-01-01 00:00
  (naive local time); `timedelta` values are `Int` seconds.
* Coordinates (`lat`, `lng`) are modelled as `Rat` (pandas floats; the claims
  only depend on decidable equality and on rendering them as text via
  `toString`).
* The CSV loader hands the program a list of rows; a missing cell (pandas NaN)
  is `Option.none`.
* The Google Maps distance-matrix collaborator is an opaque function
  (`DriveApi`); its three observable outcomes (element status `OK` with a
  duration, a non-`OK` element status, and any raised exception or malformed
  response) are the three constructors of `ApiResponse`.
* File writes are modelled as the list of strings passed to `f.write`, in
  order.
-/

namespace TripPlan

/-! ### Python `int()` on strings (the subset relevant to `parse_stay`) -/

/-- Decimal digit run to a natural number; `none` when empty or a non-digit
appears.  (Mirrors `int(s)` on an unsigned literal.) -/
def pyNatL (cs : List Char) : Option Nat :=
  if cs ≠ [] ∧ cs.all Char.isDigit then
    some (cs.foldl (fun a c => a * 10 + (c.toNat - 48)) 0)
  else none

/-- Python `int(s)`: optional surrounding whitespace, optional sign,
digits.  Returns `none` where Python raises `ValueError`.  (Char-list
implementation so that it reduces in the kernel.) -/
def pyInt (s : String) : Option Int :=
  match (s.toList.dropWhile Char.isWhitespace).reverse.dropWhile
      Char.isWhitespace |>.reverse with
  | [] => none
  | '-' :: rest => (pyNatL rest).map fun n => -(n : Int)
  | '+' :: rest => (pyNatL rest).map fun n => (n : Int)
  | cs => (pyNatL cs).map fun n => (n : Int)

/-- Python `str.split(sep)` on a character list: split at every occurrence,
the empty list giving one empty field (`"".split(':') == ['']`). -/
def splitChAux (c : Char) : List Char → List (List Char)
  | [] => [[]]
  | x :: rest =>
    match splitChAux c rest with
    | [] => [[]]
    | g :: gs => if x = c then [] :: g :: gs else (x :: g) :: gs

/-- `s.split(':')` as a list of strings. -/
def pySplitColon (s : String) : List String :=
  (splitChAux ':' s.toList).map List.asString

/-- `h, m = map(int, str(stay_str).split(':'))`: succeeds exactly when the
split on `:` yields two parts and both parse as integers. -/
def splitParse (s : String) : Option (Int × Int) :=
  match (pySplitColon s).map pyInt with
  | [some h, some m] => some (h, m)
  | _ => none

/-- `parse_stay` from the source (result in seconds):
missing (`pd.isna`) or empty input, or any parse failure, gives the 1-hour
default; otherwise `timedelta(hours=h, minutes=m)`. -/
def parse_stay (stay_str : Option String) : Int :=
  match stay_str with
  | none => 3600
  | some s =>
    if s = "" then 3600
    else match splitParse s with
      | some (h, m) => h * 3600 + m * 60
      | none => 3600

/-- `format_stay_string` from the source; Python `//` and `%` are floor
division and floor modulo, i.e. `Int.fdiv` / `Int.fmod`. -/
def format_stay_string (total_seconds : Int) : String :=
  toString (total_seconds.fdiv 3600) ++ " hour(s) " ++
    toString ((total_seconds.fmod 3600).fdiv 60) ++ " minutes"

/-! ### Data model -/

/-- One CSV row (`name,lat,lng,stay,comments`); `stay` and `comments` may be
missing. -/
structure Row where
  name : String
  lat : Rat
  lng : Rat
  stay : Option String
  comments : Option String
  deriving Repr, DecidableEq, Inhabited

/-- Observable outcome of one `gmaps.distance_matrix` call:
`ok text value` = element status `'OK'` with `duration.text`/`duration.value`;
`status s` = a non-`OK` element status string;
`failure` = any exception during the call or while reading the response
(transport error, timeout, malformed payload). -/
inductive ApiResponse where
  | ok (text : String) (value : Int)
  | status (s : String)
  | failure
  deriving Repr, DecidableEq

/-- The routing collaborator: origin and destination coordinate pairs to an
outcome.  (The source always passes `mode="driving"`.) -/
def DriveApi : Type := Rat × Rat → Rat × Rat → ApiResponse

/-- Python `str.lower()` (ASCII case fold, as used on the comment
fields). -/
def pyLower (s : String) : String :=
  (s.toList.map Char.toLower).asString

/-- Python `str.upper()` (used on the day header). -/
def pyUpper (s : String) : String :=
  (s.toList.map Char.toUpper).asString

/-- Python `str.strip()`: whitespace removed from both ends. -/
def pyStrip (s : String) : String :=
  ((s.toList.dropWhile Char.isWhitespace).reverse.dropWhile
    Char.isWhitespace).reverse.asString

/-- `str(row['comments'])`: a missing cell is pandas NaN, whose `str()` is the
literal text `"nan"`. -/
def pyStr (c : Option String) : String :=
  match c with
  | none => "nan"
  | some s => s

/-- `get_pin_link` from the source. -/
def get_pin_link (lat lng : Rat) : String :=
  "http://maps.google.com/?q=" ++ toString lat ++ "," ++ toString lng

/-- The drive-time computation for one consecutive pair (source lines 75–93):
same-location shortcut, else one collaborator call with per-outcome
fallbacks.  Returns `(drive_time, drive_seconds)`. -/
def computeDrive (api : DriveApi) (row next_row : Row) : String × Int :=
  if (row.lat, row.lng) = (next_row.lat, next_row.lng) then
    ("0 min (Same location)", 0)
  else
    match api (row.lat, row.lng) (next_row.lat, next_row.lng) with
    | .ok text value =>
        ((text.replace "hours" "hrs").replace "mins" "min", value)
    | .status s => ("0 min (" ++ s ++ ")", 0)
    | .failure => ("0 min (API Error)", 0)

/-- One itinerary entry (the dict appended at source lines 95–100). -/
structure Stop where
  name : String
  lat : Rat
  lng : Rat
  stay_str : String
  arrival : Int
  departure : Int
  drive_to_next : String
  comments : String
  pin : String
  deriving Repr, DecidableEq, Inhabited

/-- The enrichment loop (source lines 61–101): a single forward pass carrying
`current_time`; the last row gets the `"-"` sentinel and contributes 0
seconds. -/
def buildItinerary (api : DriveApi) : Int → List Row → List Stop
  | _, [] => []
  | current_time, row :: rest =>
    let stay_td := parse_stay row.stay
    let arrival := current_time
    let departure := arrival + stay_td
    let drive : String × Int :=
      match rest with
      | [] => ("-", 0)
      | next_row :: _ => computeDrive api row next_row
    { name := row.name, lat := row.lat, lng := row.lng,
      stay_str := format_stay_string stay_td,
      arrival := arrival, departure := departure,
      drive_to_next := drive.1, comments := pyStr row.comments,
      pin := get_pin_link row.lat row.lng } ::
      buildItinerary api (departure + drive.2) rest

/-! ### Calendar (proleptic Gregorian, as Python `datetime`) -/

/-- Days from 1970-01-01 to `y-m-d` (civil-from-days inverse, standard
era/year-of-era decomposition). -/
def daysFromCivil (y : Int) (m d : Nat) : Int :=
  let y' : Int := if m ≤ 2 then y - 1 else y
  let era : Int := y'.fdiv 400
  let yoe : Nat := (y' - era * 400).toNat
  let mp : Nat := if 2 < m then m - 3 else m + 9
  let doy : Nat := (153 * mp + 2) / 5 + d - 1
  let doe : Nat := yoe * 365 + yoe / 4 - yoe / 100 + doy
  era * 146097 + (doe : Int) - 719468

/-- Civil date `(year, month, day)` of a day count from 1970-01-01. -/
def civilFromDays (z : Int) : Int × Nat × Nat :=
  let z' := z + 719468
  let era : Int := z'.fdiv 146097
  let doe : Nat := (z' - era * 146097).toNat
  let yoe : Nat := (doe - doe / 1460 + doe / 36524 - doe / 146096) / 365
  let y : Int := (yoe : Int) + era * 400
  let doy : Nat := doe - (365 * yoe + yoe / 4 - yoe / 100)
  let mp : Nat := (5 * doy + 2) / 153
  let d : Nat := doy - (153 * mp + 2) / 5 + 1
  let m : Nat := if mp < 10 then mp + 3 else mp - 9
  (if m ≤ 2 then y + 1 else y, m, d)

/-- English weekday names indexed Sunday=0, as strftime `%A` in the C
locale. -/
def weekdayName (w : Nat) : String :=
  [ "Sunday", "Monday", "Tuesday", "Wednesday", "Thursday", "Friday",
    "Saturday" ].getD w ""

/-- English month names indexed January=1, as strftime `%B` in the C
locale. -/
def monthName (m : Nat) : String :=
  [ "January", "February", "March", "April", "May", "June", "July",
    "August", "September", "October", "November", "December" ].getD (m - 1) ""

/-- Zero-padded two-digit numeral. -/
def pad2 (n : Nat) : String :=
  if n < 10 then "0" ++ toString n else toString n

/-- Day number (since 1970-01-01) of a timestamp; the timestamp's calendar
date is `civilFromDays` of this number. -/
def dayNumber (t : Int) : Int := t.fdiv 86400

/-- strftime `"%A, %B %d"` of a timestamp — the day-group key (source
line 105).  Note it carries weekday, month and day-of-month but NOT the
year.  1970-01-01 (day 0) was a Thursday, hence the `+ 4`. -/
def dayLabel (t : Int) : String :=
  let z := dayNumber t
  let c := civilFromDays z
  weekdayName ((z + 4).fmod 7).toNat ++ ", " ++ monthName c.2.1 ++ " " ++
    pad2 c.2.2

/-- strftime `"%-I:%M %p"`: 12-hour clock without leading zero, minutes,
AM/PM. -/
def fmtTime (t : Int) : String :=
  let s := (t.fmod 86400).toNat
  let hh := s / 3600
  let mm := s % 3600 / 60
  let h12 := if hh % 12 = 0 then 12 else hh % 12
  toString h12 ++ ":" ++ pad2 mm ++ " " ++ (if hh < 12 then "AM" else "PM")

/-- `TRIP_START_TIME = datetime(2026, 2, 26, 22, 0)`, in epoch seconds. -/
def TRIP_START_TIME : Int := daysFromCivil 2026 2 26 * 86400 + 22 * 3600

/-! ### Day grouping (source lines 103–107)

`days` is a Python dict keyed by the `dayLabel` string; dicts preserve
insertion order, so the model is an association list where a new key is
appended at the end and an existing key's stop list is extended. -/

/-- The group key of a stop. -/
def stopLabel (s : Stop) : String := dayLabel s.arrival

/-- Append stop `s` to its label's group, creating the group at the end when
the label is new. -/
def insertStop : List (String × List Stop) → Stop → List (String × List Stop)
  | [], s => [(stopLabel s, [s])]
  | (l, xs) :: rest, s =>
    if l = stopLabel s then (l, xs ++ [s]) :: rest
    else (l, xs) :: insertStop rest s

/-- The grouping loop: `days = {}; for s in itinerary: days[label].append(s)`. -/
def groupStops (itinerary : List Stop) : List (String × List Stop) :=
  itinerary.foldl insertStop []

/-- Concatenate the groups' stops in group order. -/
def joinGroups (days : List (String × List Stop)) : List Stop :=
  (days.map Prod.snd).flatten

/-! ### Link building and the two renderers -/

/-- `get_daily_route_link` from the source: the `/dir/` path form,
`"lat,lng"` segments joined by `/`. -/
def get_daily_route_link (stops : List Stop) : String :=
  if stops = [] then ""
  else
    "https://www.google.com/maps/dir/" ++
      String.intercalate "/" (stops.map fun s =>
        toString s.lat ++ "," ++ toString s.lng)

/-- Modelled from the spec's words (§4.4/§4.5 contract), for the refinement
claim: "the routing service's multi-waypoint path form, built by joining
every stop's latitude,longitude pair in visit order with a path
separator". -/
def specDailyRouteLink (stops : List Stop) : String :=
  "https://www.google.com/maps/dir/" ++
    String.intercalate "/" (stops.map fun s =>
      toString s.lat ++ "," ++ toString s.lng)

/-- The `f.write` payloads for one stop of the text report (source
lines 114–119). -/
def renderTxtStop (s : Stop) : List String :=
  ["📍 " ++ s.name ++ "\n   🕒 Arrive:  " ++ fmtTime s.arrival ++
     "\n   ⌛ Stay:    " ++ s.stay_str ++ "\n   🛫 Depart:  " ++
     fmtTime s.departure ++ "\n"] ++
  (if s.drive_to_next ≠ "-" then
     ["   🚗 Drive:   " ++ s.drive_to_next ++ " to next destination\n"]
   else []) ++
  ["   🔗 Pin:      " ++ s.pin ++ "\n"] ++
  (if pyLower s.comments ≠ "no comments" then
     ["   💬 Info:    " ++ s.comments ++ "\n"]
   else []) ++
  ["\n"]

/-- The `f.write` payloads for one day of the text report (source
lines 111–119). -/
def renderTxtDay (d : String) (stops : List Stop) : List String :=
  ["----------------------------------------\n>>> " ++ pyUpper d ++
     " <<<\n----------------------------------------\n\n",
   "🗺️ FULL DAY ROUTE MAP: " ++ get_daily_route_link stops ++ "\n\n"] ++
  (stops.map renderTxtStop).flatten

/-- Full text-report content. -/
def renderTxt (days : List (String × List Stop)) : String :=
  String.join ((days.map fun g => renderTxtDay g.1 g.2).flatten)

/-- The `f.write` payloads for one stop of the HTML report (source
lines 139–152). -/
def renderHtmlStop (s : Stop) : List String :=
  ["<div class='stop'><div class='stop-name'>📍 " ++ s.name ++ "</div>"] ++
  (if pyLower s.comments ≠ "no comments" ∧ pyStrip s.comments ≠ "" then
     ["<div class='comment-box'>💬 <b>Info:</b> " ++ s.comments ++ "</div>"]
   else []) ++
  ["<div class='details'>",
   "🕒 <b>Arrive:</b> " ++ fmtTime s.arrival ++ "<br>",
   "⌛ <b>Stay:</b> " ++ s.stay_str ++ "<br>",
   "🛫 <b>Depart:</b> " ++ fmtTime s.departure ++ "<br>"] ++
  (if s.drive_to_next ≠ "-" then
     ["🚗 <b>Drive:</b> " ++ s.drive_to_next ++ " to next destination<br>"]
   else []) ++
  ["<a class='pin-link' href='" ++ s.pin ++ "'>🔗 View Map Pin</a>",
   "</div></div>"]

/-- The `f.write` payloads for one day of the HTML report (source
lines 136–153). -/
def renderHtmlDay (d : String) (stops : List Stop) : List String :=
  ["<div class='day-box'><h2>" ++ d ++ "</h2>",
   "<a class='map-btn' href='" ++ get_daily_route_link stops ++
     "'>View Map For Entire Day's Route!</a>"] ++
  (stops.map renderHtmlStop).flatten ++
  ["</div>"]

/-- The fixed HTML prologue (source lines 123–133), kept as one string. -/
def htmlHead : String :=
  "<!DOCTYPE html><html><head><meta charset='utf-8'><meta name='viewport' content='width=device-width, initial-scale=1'><style>...</style></head><body><h1 style='text-align:center;'>Trip Itinerary</h1>"

/-- Full HTML-report content. -/
def renderHtml (days : List (String × List Stop)) : String :=
  htmlHead ++
    String.join ((days.map fun g => renderHtmlDay g.1 g.2).flatten) ++
    "</body></html>"

/-! ### `main` -/

/-- Python truthiness of `API_KEY` (`not API_KEY`): `None` and `""` are
falsy. -/
def pyTruthy (s : Option String) : Bool :=
  match s with
  | none => false
  | some str => str ≠ ""

/-- Outcome of a run: either a fatal startup message (nothing written), or
the two produced documents. -/
inductive MainResult where
  | fatal (msg : String)
  | ok (txt html : String)
  deriving Repr, DecidableEq

/-- `main` (source lines 48–156): credential check, CSV load (`none` models
`FileNotFoundError`), enrichment, grouping, the two renderings. -/
def mainModel (apiKey : Option String) (csv : Option (List Row))
    (api : DriveApi) : MainResult :=
  if ¬ pyTruthy apiKey then .fatal "❌ Error: GOOGLE_MAPS_API_KEY not set."
  else
    match csv with
    | none => .fatal "❌ Error: trip-destinations.csv not found."
    | some rows =>
      let itinerary := buildItinerary api TRIP_START_TIME rows
      let days := groupStops itinerary
      .ok (renderTxt days) (renderHtml days)

/-- The output files a run commits: `(path, content)` pairs; a fatal exit
writes nothing. -/
def filesWritten : MainResult → List (String × String)
  | .fatal _ => []
  | .ok txt html => [("trip-itinerary.txt", txt), ("index.html", html)]

/-! ### Auxiliary predicates for the grouping theorems -/

/-- Every stop stored in a group bears that group's label. -/
def GroupsLabelled (gs : List (String × List Stop)) : Prop :=
  ∀ p ∈ gs, ∀ s ∈ p.2, stopLabel s = p.1

/-- `runsOk ls` holds when equal labels occur only in consecutive runs: at
every point where the label changes, the old label must not appear in the
remainder. -/
def runsOk : List String → Bool
  | [] => true
  | [_] => true
  | a :: b :: rest => (a == b || !((b :: rest).contains a)) && runsOk (b :: rest)

/-! ### Concrete fixtures used by witnesses and counterexamples -/

/-- A collaborator that always answers `OK` with "5 mins", 300 seconds. -/
def apiOk : DriveApi := fun _ _ => .ok "5 mins" 300

/-- A collaborator that always answers the non-`OK` status
`ZERO_RESULTS`. -/
def apiStatus : DriveApi := fun _ _ => .status "ZERO_RESULTS"

/-- A collaborator whose every call raises. -/
def apiFail : DriveApi := fun _ _ => .failure

/-- A concrete destination row. -/
def rowA : Row :=
  { name := "A", lat := 1, lng := 2, stay := some "2:30",
    comments := some "hello" }

/-- A second row at a different location. -/
def rowB : Row :=
  { name := "B", lat := 3, lng := 4, stay := some "1:0",
    comments := some "world" }

/-- A row at the same location as `rowA`. -/
def rowA' : Row :=
  { name := "A2", lat := 1, lng := 2, stay := some "0:45",
    comments := some "again" }

/-- A row with missing stay and missing comments cells. -/
def rowNoC : Row :=
  { name := "C", lat := 5, lng := 6, stay := none, comments := none }

/-- First row of the label-collision trip: a stay of 52562 hours lands the
next arrival exactly on 2032-02-26 00:00. -/
def rLong1 : Row :=
  { name := "L1", lat := 1, lng := 2, stay := some "52562:0",
    comments := some "x" }

/-- Second row of the label-collision trip. -/
def rLong2 : Row :=
  { name := "L2", lat := 1, lng := 2, stay := some "1:0",
    comments := some "y" }

/-- The label-collision itinerary: both arrivals fall on a "Thursday,
February 26", six years apart. -/
def longTrip : List Stop :=
  buildItinerary apiFail TRIP_START_TIME [rLong1, rLong2]

/-- Rows whose middle stop crosses into February 27 while a negative stay
sends the third arrival back onto February 26. -/
def rBack1 : Row :=
  { name := "B1", lat := 1, lng := 2, stay := some "3:0",
    comments := some "c1" }

/-- Second back-trip row: stay `-24:0` parses to minus one day. -/
def rBack2 : Row :=
  { name := "B2", lat := 1, lng := 2, stay := some "-24:0",
    comments := some "c2" }

/-- Third back-trip row. -/
def rBack3 : Row :=
  { name := "B3", lat := 1, lng := 2, stay := some "1:0",
    comments := some "c3" }

/-- The out-of-order-day itinerary with labels Thu 26 / Fri 27 / Thu 26. -/
def backTrip : List Stop :=
  buildItinerary apiFail TRIP_START_TIME [rBack1, rBack2, rBack3]

/-- A concrete stop for renderer witnesses. -/
def wStop : Stop :=
  { name := "W", lat := 1, lng := 2, stay_str := "1 hour(s) 0 minutes",
    arrival := TRIP_START_TIME, departure := TRIP_START_TIME + 3600,
    drive_to_next := "-", comments := "note", pin := get_pin_link 1 2 }

/-! ## Theorems -/

/-- The first stop of a non-empty itinerary arrives at the fold's start
time. -/
lemma bi_getD_arrival_zero (api : DriveApi) (t : Int) (r : Row)
    (rest : List Row) :
    ((buildItinerary api t (r :: rest)).getD 0 default).arrival = t := by
  simp [buildItinerary]

/-- Each stop departs its own arrival plus its parsed stay. -/
lemma bi_getD_departure (api : DriveApi) (t : Int) (rows : List Row) (i : Nat)
    (hi : i < rows.length) :
    ((buildItinerary api t rows).getD i default).departure =
      ((buildItinerary api t rows).getD i default).arrival +
        parse_stay ((rows.getD i default).stay) := by
  induction rows generalizing t i with
  | nil => simp at hi
  | cons r rest ih =>
    cases i with
    | zero => simp [buildItinerary]
    | succ i' =>
      have hi' : i' < rest.length := by simpa using hi
      simp only [buildItinerary, List.getD_cons_succ]
      exact ih _ i' hi'

/-- Each later stop arrives at the previous stop's departure plus the drive
seconds computed for that consecutive pair. -/
lemma bi_getD_arrival_succ (api : DriveApi) (t : Int) (rows : List Row)
    (i : Nat) (hi : i + 1 < rows.length) :
    ((buildItinerary api t rows).getD (i + 1) default).arrival =
      ((buildItinerary api t rows).getD i default).departure +
        (computeDrive api (rows.getD i default)
          (rows.getD (i + 1) default)).2 := by
  induction rows generalizing t i with
  | nil => simp at hi
  | cons r rest ih =>
    cases rest with
    | nil => simp at hi
    | cons r2 rest2 =>
      cases i with
      | zero => simp [buildItinerary]
      | succ i' =>
        have hi' : i' + 1 < (r2 :: rest2).length := by simpa using hi
        simp only [buildItinerary, List.getD_cons_succ]
        exact ih _ i' hi'

/-- C1: over every destination list and every routing collaborator (hence
every assignment of per-pair driving seconds), the builder satisfies
`arrival[0] = TRIP_START_TIME`, `arrival[i+1] = departure[i] +
drive_seconds[i]`, and `departure[i] = arrival[i] + stay_duration[i]`. -/
theorem itinerary_time_chain (api : DriveApi) (rows : List Row) :
    (rows ≠ [] →
      ((buildItinerary api TRIP_START_TIME rows).getD 0 default).arrival =
        TRIP_START_TIME) ∧
    (∀ i, i + 1 < rows.length →
      ((buildItinerary api TRIP_START_TIME rows).getD (i + 1) default).arrival
        = ((buildItinerary api TRIP_START_TIME rows).getD i
            default).departure +
          (computeDrive api (rows.getD i default)
            (rows.getD (i + 1) default)).2) ∧
    (∀ i, i < rows.length →
      ((buildItinerary api TRIP_START_TIME rows).getD i default).departure =
        ((buildItinerary api TRIP_START_TIME rows).getD i default).arrival +
          parse_stay ((rows.getD i default).stay)) := by
  refine ⟨?_, fun i hi => bi_getD_arrival_succ api TRIP_START_TIME rows i hi,
    fun i hi => bi_getD_departure api TRIP_START_TIME rows i hi⟩
  intro hne
  match rows with
  | r :: rest => exact bi_getD_arrival_zero api TRIP_START_TIME r rest

/-- C1 witness: the chain instantiated on a concrete two-row trip under the
always-`OK` collaborator. -/
theorem itinerary_time_chain_witness :
    ((buildItinerary apiOk TRIP_START_TIME [rowA, rowB]).getD 0
        default).arrival = TRIP_START_TIME ∧
    ((buildItinerary apiOk TRIP_START_TIME [rowA, rowB]).getD 1
        default).arrival =
      ((buildItinerary apiOk TRIP_START_TIME [rowA, rowB]).getD 0
          default).departure +
        (computeDrive apiOk ([rowA, rowB].getD 0 default)
          ([rowA, rowB].getD 1 default)).2 ∧
    ((buildItinerary apiOk TRIP_START_TIME [rowA, rowB]).getD 0
        default).departure =
      ((buildItinerary apiOk TRIP_START_TIME [rowA, rowB]).getD 0
          default).arrival +
        parse_stay (([rowA, rowB].getD 0 default).stay) :=
  ⟨(itinerary_time_chain apiOk [rowA, rowB]).1 (by decide),
   (itinerary_time_chain apiOk [rowA, rowB]).2.1 0 (by decide),
   (itinerary_time_chain apiOk [rowA, rowB]).2.2 0 (by decide)⟩

/-- C2: `parse_stay` maps a two-part `"H:M"` text with integer parts `h`, `m`
to exactly `h` hours plus `m` minutes; an absent value, the empty string, and
any text whose split does not give two integers (non-numeric text, `"1:2:3"`)
give exactly 1 hour; the function is total (never raises), returning a value
on every input.  The spec's examples are included literally. -/
theorem parse_stay_contract :
    (∀ s h m, splitParse s = some (h, m) →
      parse_stay (some s) = h * 3600 + m * 60) ∧
    parse_stay none = 3600 ∧
    parse_stay (some "") = 3600 ∧
    (∀ s, s ≠ "" → splitParse s = none → parse_stay (some s) = 3600) ∧
    parse_stay (some "2:30") = 2 * 3600 + 30 * 60 ∧
    parse_stay (some "bad") = 3600 ∧
    parse_stay (some "1:2:3") = 3600 := by
  refine ⟨?_, rfl, rfl, ?_, by decide, by decide, by decide⟩
  · intro s h m hp
    by_cases hs : s = ""
    · subst hs
      rw [show splitParse "" = none by decide] at hp
      exact Option.noConfusion hp
    · simp [parse_stay, hs, hp]
  · intro s hs hp
    simp [parse_stay, hs, hp]

/-- C2 witness: the contract instantiated at `"2:30"`. -/
theorem parse_stay_contract_witness :
    parse_stay (some "2:30") = 2 * 3600 + 30 * 60 :=
  parse_stay_contract.1 "2:30" 2 30 (by decide)

/-- C3 counterexample: the stay parser is NOT non-negative on every input —
`"-2:0"` parses to minus two hours. -/
theorem parse_stay_negative_counterexample :
    parse_stay (some "-2:0") = -7200 ∧ parse_stay (some "-2:0") < 0 := by
  decide

/-- C3 (amended): the parsed duration is non-negative provided that whenever
the text splits into two integer parts, both parts are non-negative; every
failure path yields the non-negative 1-hour default. -/
theorem parse_stay_nonneg (stay_str : Option String)
    (h : ∀ s hh mm, stay_str = some s → splitParse s = some (hh, mm) →
      0 ≤ hh ∧ 0 ≤ mm) :
    0 ≤ parse_stay stay_str := by
  cases stay_str with
  | none => norm_num [parse_stay]
  | some s =>
    by_cases hs : s = ""
    · simp [parse_stay, hs]
    · cases hsp : splitParse s with
      | none => simp [parse_stay, hs, hsp]
      | some p =>
        obtain ⟨hh, mm⟩ := p
        obtain ⟨h1, h2⟩ := h s hh mm rfl hsp
        simp only [parse_stay, if_neg hs, hsp]
        nlinarith

/-- C3 witness: the amended theorem applied to an absent stay value. -/
theorem parse_stay_nonneg_witness : 0 ≤ parse_stay none :=
  parse_stay_nonneg none (fun _ _ _ hs _ => Option.noConfusion hs)

/-- C4: when two consecutive rows have exactly equal latitude and longitude,
the enrichment yields the `"0 min (Same location)"` label with 0 seconds, and
the result does not depend on the routing collaborator at all (no call is
observable). -/
theorem same_location_shortcut (api : DriveApi) (row next_row : Row)
    (hlat : row.lat = next_row.lat) (hlng : row.lng = next_row.lng) :
    computeDrive api row next_row = ("0 min (Same location)", 0) ∧
    ∀ api2 : DriveApi, computeDrive api row next_row =
      computeDrive api2 row next_row := by
  refine ⟨by simp [computeDrive, hlat, hlng], fun api2 => ?_⟩
  simp [computeDrive, hlat, hlng]

/-- C4 witness: the shortcut at two concrete co-located rows, under a
collaborator that would answer `OK 300` if it were called. -/
theorem same_location_shortcut_witness :
    computeDrive apiOk rowA rowA' = ("0 min (Same location)", 0) :=
  (same_location_shortcut apiOk rowA rowA' rfl rfl).1

/-- C5: for a pair of distinct-coordinate rows, a non-`OK` status `s` from
the collaborator gives the `0`-second fallback labelled `"0 min (s)"`, and a
raised/malformed call gives the `0`-second `"0 min (API Error)"` fallback;
moreover the pass never drops or duplicates a row: the itinerary always has
exactly one stop per input row. -/
theorem routing_fallback (api : DriveApi) (row next_row : Row)
    (hne : (row.lat, row.lng) ≠ (next_row.lat, next_row.lng)) :
    (∀ s, api (row.lat, row.lng) (next_row.lat, next_row.lng) = .status s →
      computeDrive api row next_row = ("0 min (" ++ s ++ ")", 0)) ∧
    (api (row.lat, row.lng) (next_row.lat, next_row.lng) = .failure →
      computeDrive api row next_row = ("0 min (API Error)", 0)) ∧
    (∀ t rows, (buildItinerary api t rows).length = rows.length) := by
  refine ⟨?_, ?_, ?_⟩
  · intro s hst
    simp [computeDrive, hne, hst]
  · intro hf
    simp [computeDrive, hne, hf]
  · intro t rows
    induction rows generalizing t with
    | nil => rfl
    | cons r rest ih => simp [buildItinerary, ih]

/-- C5 witness: the status fallback at concrete distinct rows under the
always-`ZERO_RESULTS` collaborator. -/
theorem routing_fallback_witness :
    computeDrive apiStatus rowA rowB = ("0 min (ZERO_RESULTS)", 0) :=
  (routing_fallback apiStatus rowA rowB (by decide)).1 "ZERO_RESULTS" rfl

/-- C9: with the credential absent from the environment, `main` reports the
fatal message and exits; no output file is written in that case. -/
theorem missing_credential_no_output (csv : Option (List Row))
    (api : DriveApi) :
    mainModel none csv api =
      .fatal "❌ Error: GOOGLE_MAPS_API_KEY not set." ∧
    filesWritten (mainModel none csv api) = [] := by
  constructor <;> simp [mainModel, pyTruthy, filesWritten]

/-- C8: for every (non-empty) day group, the text renderer and the HTML
renderer embed the identical full-day-route URL, and that URL is exactly the
spec's multi-waypoint path form: the directions base followed by each stop's
`"lat,lng"` pair in visit order joined by `/`. -/
theorem day_route_link_consistent (d : String) (stops : List Stop)
    (hne : stops ≠ []) :
    get_daily_route_link stops = specDailyRouteLink stops ∧
    ("🗺️ FULL DAY ROUTE MAP: " ++ specDailyRouteLink stops ++ "\n\n")
      ∈ renderTxtDay d stops ∧
    ("<a class='map-btn' href='" ++ specDailyRouteLink stops ++
       "'>View Map For Entire Day's Route!</a>") ∈ renderHtmlDay d stops := by
  have h1 : get_daily_route_link stops = specDailyRouteLink stops := by
    simp [get_daily_route_link, specDailyRouteLink, hne]
  refine ⟨h1, ?_, ?_⟩
  · simp [renderTxtDay, h1]
  · simp [renderHtmlDay, h1]

/-- C8 witness: the shared URL at a concrete one-stop group. -/
theorem day_route_link_consistent_witness :
    get_daily_route_link [wStop] = specDailyRouteLink [wStop] :=
  (day_route_link_consistent "D" [wStop] (by decide)).1

/-- C10: a row whose comments cell is absent yields a stop whose stored
comment is the literal `"nan"`; since `"nan"` is non-empty and does not
case-insensitively equal `"no comments"`, the text renderer emits its Info
line and the HTML renderer emits its comment box, both containing `"nan"`. -/
theorem missing_comments_rendered (api : DriveApi) (t : Int) (r : Row)
    (rest : List Row) (s : Stop) (its : List Stop)
    (hbuild : buildItinerary api t (r :: rest) = s :: its)
    (hc : r.comments = none) :
    s.comments = "nan" ∧
    ("   💬 Info:    nan\n") ∈ renderTxtStop s ∧
    ("<div class='comment-box'>💬 <b>Info:</b> nan</div>")
      ∈ renderHtmlStop s := by
  have hs : s.comments = "nan" := by
    simp only [buildItinerary, List.cons.injEq] at hbuild
    obtain ⟨h1, _⟩ := hbuild
    rw [← h1]
    simp [pyStr, hc]
  have hlow : pyLower s.comments ≠ "no comments" := by rw [hs]; decide
  have hstrip : pyStrip s.comments ≠ "" := by rw [hs]; decide
  refine ⟨hs, ?_, ?_⟩
  · have he : ("   💬 Info:    nan\n" : String) =
        "   💬 Info:    " ++ s.comments ++ "\n" := by rw [hs]; decide
    rw [he]
    simp [renderTxtStop, hlow]
  · have he : ("<div class='comment-box'>💬 <b>Info:</b> nan</div>" :
        String) =
        "<div class='comment-box'>💬 <b>Info:</b> " ++ s.comments ++
          "</div>" := by rw [hs]; decide
    rw [he]
    simp [renderHtmlStop, hlow, hstrip]

/-- The stop produced from `rowNoC` (missing stay and comments), used as the
C10 witness input. -/
def wStopNoC : Stop :=
  { name := "C", lat := 5, lng := 6, stay_str := format_stay_string 3600,
    arrival := 0, departure := 3600, drive_to_next := "-",
    comments := "nan", pin := get_pin_link 5 6 }

/-- C10 witness: the Info line for the concrete missing-comments row. -/
theorem missing_comments_rendered_witness :
    ("   💬 Info:    nan\n") ∈ renderTxtStop wStopNoC :=
  (missing_comments_rendered apiFail 0 rowNoC [] wStopNoC []
    (by decide) rfl).2.1

/-- `insertStop` preserves the "every stored stop bears its group's label"
invariant. -/
lemma insertStop_labelled (gs : List (String × List Stop)) (s : Stop)
    (h : GroupsLabelled gs) : GroupsLabelled (insertStop gs s) := by
  induction gs with
  | nil =>
    intro p hp s' hs'
    simp only [insertStop, List.mem_singleton] at hp
    subst hp
    simp only [List.mem_singleton] at hs'
    subst hs'
    rfl
  | cons g rest ih =>
    obtain ⟨l, xs⟩ := g
    intro p hp s' hs'
    by_cases hl : l = stopLabel s
    · simp only [insertStop, if_pos hl, List.mem_cons] at hp
      rcases hp with hp | hp
      · subst hp
        rcases List.mem_append.mp hs' with h1 | h1
        · exact h (l, xs) (List.mem_cons_self _ _) s' h1
        · simp only [List.mem_singleton] at h1
          subst h1
          exact hl.symm
      · exact h p (List.mem_cons_of_mem _ hp) s' hs'
    · simp only [insertStop, if_neg hl, List.mem_cons] at hp
      rcases hp with hp | hp
      · subst hp
        exact h (l, xs) (List.mem_cons_self _ _) s' hs'
      · exact ih (fun q hq => h q (List.mem_cons_of_mem _ hq)) p hp s' hs'

/-- Every group produced by the grouping loop is internally labelled by its
own key. -/
lemma groupStops_labelled (ss : List Stop) :
    GroupsLabelled (groupStops ss) := by
  suffices h : ∀ acc, GroupsLabelled acc →
      GroupsLabelled (ss.foldl insertStop acc) by
    refine h [] ?_
    intro p hp
    simp at hp
  induction ss with
  | nil => intro acc hacc; exact hacc
  | cons s rest ih =>
    intro acc hacc
    exact ih _ (insertStop_labelled acc s hacc)

/-- C6 (amended): the grouping key is the `"%A, %B %d"` label, not the full
calendar date.  Any two stops in one group share that label (same weekday,
month and day-of-month of arrival), and arrivals on the same calendar day
(equal day number) always receive the same label, hence the same group; but
the label omits the year, so distinct calendar dates can share a group (see
the counterexample). -/
theorem day_grouping_by_label (ss : List Stop) (l : String) (xs : List Stop)
    (hmem : (l, xs) ∈ groupStops ss) :
    (∀ a ∈ xs, stopLabel a = l) ∧
    (∀ a ∈ xs, ∀ b ∈ xs, dayLabel a.arrival = dayLabel b.arrival) ∧
    (∀ t u : Int, dayNumber t = dayNumber u → dayLabel t = dayLabel u) := by
  have hlab := groupStops_labelled ss (l, xs) hmem
  refine ⟨fun a ha => hlab a ha, fun a ha b hb => ?_, fun t u h => ?_⟩
  · have h1 : stopLabel a = l := hlab a ha
    have h2 : stopLabel b = l := hlab b hb
    unfold stopLabel at h1 h2
    rw [h1, h2]
  · unfold dayLabel
    rw [h]

/-- C6 witness: the label invariant at a concrete singleton itinerary. -/
theorem day_grouping_by_label_witness :
    stopLabel wStop = "Thursday, February 26" :=
  (day_grouping_by_label [wStop] "Thursday, February 26" [wStop]
    (by decide)).1 wStop (by decide)

/-- C6 counterexample: in `longTrip` the two arrivals fall on the distinct
calendar dates 2026-02-26 and 2032-02-26, yet both carry the label
`"Thursday, February 26"` and land in the SAME day group — the claim that
stops on distinct calendar dates are never grouped together is false. -/
theorem day_grouping_counterexample :
    groupStops longTrip = [("Thursday, February 26", longTrip)] ∧
    longTrip.length = 2 ∧
    civilFromDays (dayNumber ((longTrip.getD 0 default).arrival)) =
      (2026, 2, 26) ∧
    civilFromDays (dayNumber ((longTrip.getD 1 default).arrival)) =
      (2032, 2, 26) := by
  decide

/-- Inserting a stop whose label names no group of the prefix `acc` leaves
`acc` untouched. -/
lemma insertStop_append (acc gs : List (String × List Stop)) (s : Stop)
    (h : stopLabel s ∉ acc.map Prod.fst) :
    insertStop (acc ++ gs) s = acc ++ insertStop gs s := by
  induction acc with
  | nil => rfl
  | cons g acc' ih =>
    obtain ⟨l, xs⟩ := g
    have hne : l ≠ stopLabel s := by
      intro hl
      exact h (by simp [hl])
    have h' : stopLabel s ∉ acc'.map Prod.fst := fun hm => h (by simp [hm])
    simp only [List.cons_append, insertStop, if_neg hne]
    exact congrArg _ (ih h')

/-- Folding stops whose labels avoid the prefix `acc₀` acts only on the
suffix accumulator. -/
lemma foldl_insert_append (other : List Stop)
    (acc₀ acc : List (String × List Stop))
    (h : ∀ x ∈ other, stopLabel x ∉ acc₀.map Prod.fst) :
    other.foldl insertStop (acc₀ ++ acc) =
      acc₀ ++ other.foldl insertStop acc := by
  induction other generalizing acc with
  | nil => rfl
  | cons x other' ih =>
    simp only [List.foldl_cons]
    rw [insertStop_append acc₀ acc x (h x (List.mem_cons_self _ _))]
    exact ih _ (fun y hy => h y (List.mem_cons_of_mem _ hy))

/-- Folding stops that all bear label `l` into the singleton group `l`
appends them to that group. -/
lemma foldl_insert_same (same : List Stop) (l : String) (xs : List Stop)
    (h : ∀ x ∈ same, stopLabel x = l) :
    same.foldl insertStop [(l, xs)] = [(l, xs ++ same)] := by
  induction same generalizing xs with
  | nil => simp
  | cons x same' ih =>
    have hx : l = stopLabel x := (h x (List.mem_cons_self _ _)).symm
    simp only [List.foldl_cons, insertStop, if_pos hx]
    rw [ih (xs ++ [x]) (fun y hy => h y (List.mem_cons_of_mem _ hy))]
    simp

/-- `runsOk` passes to the tail. -/
lemma runsOk_tail (a : String) (ls : List String)
    (h : runsOk (a :: ls) = true) : runsOk ls = true := by
  cases ls with
  | nil => rfl
  | cons b rest =>
    rw [runsOk, Bool.and_eq_true] at h
    exact h.2

/-- `runsOk` is preserved by dropping a prefix. -/
lemma runsOk_dropWhile (p : String → Bool) (ls : List String)
    (h : runsOk ls = true) : runsOk (ls.dropWhile p) = true := by
  induction ls with
  | nil => exact h
  | cons a rest ih =>
    by_cases hp : p a
    · simp only [List.dropWhile_cons, hp, if_true]
      exact ih (runsOk_tail a rest h)
    · simp only [List.dropWhile_cons, hp, if_false]
      exact h

/-- In a `runsOk` list, the head label does not recur after its initial
run. -/
lemma runsOk_head_notin (a : String) (ls : List String)
    (h : runsOk (a :: ls) = true) :
    a ∉ ls.dropWhile (fun x => x == a) := by
  induction ls with
  | nil => simp
  | cons b rest ih =>
    by_cases hab : (b == a) = true
    · obtain rfl : a = b := (eq_of_beq hab).symm
      simp only [List.dropWhile_cons, hab, if_true]
      exact ih (runsOk_tail a (a :: rest) h)
    · simp only [List.dropWhile_cons, hab, if_false]
      rw [runsOk, Bool.and_eq_true, Bool.or_eq_true] at h
      rcases h.1 with hc | hc
      · exact absurd (beq_iff_eq.mpr (eq_of_beq hc).symm) (by simp [hab])
      · intro hm
        generalize b :: rest = L at hc hm
        simp only [Bool.not_eq_true'] at hc
        simp at hc
        exact hc hm

/-- C7 counterexample: in `backTrip` the day labels run Thursday 26 /
Friday 27 / Thursday 26 (the `"-24:0"` stay steps time backwards), so
concatenating the day groups in first-seen order gives the stops in the
order 1, 3, 2 — not the original itinerary. -/
theorem flatten_groups_counterexample :
    joinGroups (groupStops backTrip) ≠ backTrip ∧
    backTrip.length = 3 := by
  decide

/-- C7 (amended): concatenating the day groups in first-seen order, each in
its within-group order, reconstructs the itinerary PROVIDED each label's
occurrences are consecutive in the itinerary (`runsOk`); that holds for any
forward-moving trip shorter than a year, but not in general (see the
counterexample). -/
theorem flatten_groups_of_runsOk (ss : List Stop)
    (h : runsOk (ss.map stopLabel) = true) :
    joinGroups (groupStops ss) = ss := by
  suffices H : ∀ n (ss : List Stop), ss.length ≤ n →
      runsOk (ss.map stopLabel) = true → joinGroups (groupStops ss) = ss by
    exact H ss.length ss le_rfl h
  intro n
  induction n with
  | zero =>
    intro ss hlen _
    rw [List.length_eq_zero.mp (Nat.le_zero.mp hlen)]
    rfl
  | succ n ih =>
    intro ss hlen hok
    match ss with
    | [] => rfl
    | s :: rest =>
      have hsplit : rest.takeWhile (fun x => stopLabel x == stopLabel s) ++
          rest.dropWhile (fun x => stopLabel x == stopLabel s) = rest :=
        List.takeWhile_append_dropWhile _ _
      have hsame_lab : ∀ x ∈
          rest.takeWhile (fun x => stopLabel x == stopLabel s),
          stopLabel x = stopLabel s := by
        intro x hx
        have hpx := List.mem_takeWhile_imp
          (p := fun y => stopLabel y == stopLabel s) hx
        exact eq_of_beq hpx
      have hmapdrop : (rest.map stopLabel).dropWhile
            (fun x => x == stopLabel s) =
          (rest.dropWhile (fun x => stopLabel x == stopLabel s)).map
            stopLabel :=
        List.dropWhile_map stopLabel (fun x => x == stopLabel s) rest
      have hok' : runsOk (stopLabel s :: rest.map stopLabel) = true := by
        rw [List.map_cons] at hok
        exact hok
      have hnotin : stopLabel s ∉
          (rest.dropWhile (fun x => stopLabel x == stopLabel s)).map
            stopLabel := by
        have h0 := runsOk_head_notin (stopLabel s) (rest.map stopLabel) hok'
        rwa [hmapdrop] at h0
      have hrun : runsOk ((rest.dropWhile
          (fun x => stopLabel x == stopLabel s)).map stopLabel) = true := by
        have h0 := runsOk_dropWhile (fun x => x == stopLabel s)
          (rest.map stopLabel) (runsOk_tail _ _ hok')
        rwa [hmapdrop] at h0
      have hlenother :
          (rest.dropWhile (fun x => stopLabel x == stopLabel s)).length
            ≤ n := by
        have h1 := (List.dropWhile_suffix
          (fun x => stopLabel x == stopLabel s) (l := rest)).length_le
        simp only [List.length_cons, Nat.succ_le_succ_iff] at hlen
        omega
      have key : groupStops (s :: rest) =
          (stopLabel s,
            s :: rest.takeWhile (fun x => stopLabel x == stopLabel s)) ::
            groupStops
              (rest.dropWhile (fun x => stopLabel x == stopLabel s)) := by
        unfold groupStops
        conv_lhs => rw [← hsplit]
        simp only [List.foldl_cons, List.foldl_append]
        rw [show insertStop [] s = [(stopLabel s, [s])] from rfl]
        rw [foldl_insert_same _ (stopLabel s) [s] hsame_lab]
        have happ := foldl_insert_append
          (rest.dropWhile (fun x => stopLabel x == stopLabel s))
          [(stopLabel s,
            s :: rest.takeWhile (fun x => stopLabel x == stopLabel s))] []
          (by
            intro x hx hmem
            simp only [List.map_cons, List.map_nil,
              List.mem_singleton] at hmem
            have h1 := List.mem_map_of_mem stopLabel hx
            rw [hmem] at h1
            exact hnotin h1)
        simp only [List.append_nil] at happ
        rw [show ([(stopLabel s,
            [s] ++ rest.takeWhile (fun x => stopLabel x == stopLabel s))] :
            List (String × List Stop)) =
          [(stopLabel s,
            s :: rest.takeWhile (fun x => stopLabel x == stopLabel s))]
          from by simp]
        rw [happ]
        rfl
      rw [key]
      unfold joinGroups
      simp only [List.map_cons, List.flatten_cons]
      have iho := ih (rest.dropWhile (fun x => stopLabel x == stopLabel s))
        hlenother hrun
      unfold joinGroups at iho
      rw [iho]
      simp only [List.cons_append, List.cons.injEq, true_and]
      exact hsplit

/-- C7 witness: reconstruction on the concrete two-stop label-collision trip
(whose labels are consecutive, hence `runsOk`). -/
theorem flatten_groups_of_runsOk_witness :
    joinGroups (groupStops longTrip) = longTrip :=
  flatten_groups_of_runsOk longTrip (by decide)

end TripPlan
